import Mathlib

/-!
Verification of the tool registration / dispatch layer of the MCP
file-operation server, together with the individual tool handlers that the
claims under examination reference (ping-tool, todo-list-tool, count-files,
read-file, watch-file-changes, get-system-info) and the shared timeout
utility.

The embedding is shallow: each TypeScript function is translated into an
executable Lean function.  External side effects (filesystem, subprocess
execution, OS queries) are supplied as explicit environment records, and a
JavaScript exception / promise rejection is modelled by `Except String`:
a handler body that can throw is a value of `Except String Outcome`, and the
JS `try { .. } catch (e) { .. }` block is the total function `tryCatch`.

JavaScript numbers are modelled by `ℚ` (exact arithmetic; the operations the
code performs on them — comparison, min/max, multiplication by 1000,
rounding — are exact on the relevant ranges).
-/

set_option autoImplicit false

namespace MCP

/-! ## Outcome: the universal handler return value -/

/-- One content block of a response; the server only ever produces
text blocks (`{ type: 'text', text: ... }`). -/
inductive ContentBlock where
  | text (s : String)
  deriving DecidableEq, Repr

/-- The normalized response envelope
`{ content: [...], isError?: boolean }`; `isError = none` models the
field being absent (success). -/
structure Outcome where
  content : List ContentBlock
  isError : Option Bool := none
  deriving DecidableEq, Repr

/-- A success outcome with a single text block (the common
`return { content: [{ type: 'text', text }] }` shape). -/
def textOutcome (s : String) : Outcome :=
  { content := [ContentBlock.text s], isError := none }

/-- An error outcome with a single text block
(`return { content: [...], isError: true }`). -/
def errorOutcome (s : String) : Outcome :=
  { content := [ContentBlock.text s], isError := some true }

/-- JS `try { body } catch (e) { handler }` for a body that produces an
`Outcome`: a thrown value never escapes, it is mapped through the catch
clause. -/
def tryCatch (body : Except String Outcome) (handler : String → Outcome) :
    Except String Outcome :=
  match body with
  | Except.ok o => Except.ok o
  | Except.error e => Except.ok (handler e)

/-! ## Argument values and the schema validator

The per-tool input schemas are zod schemas in the source; the validation
engine itself is the zod library, which is not part of this repository.

Modelled from the spec: `validateArgs` below implements the §4.2
"Schema Validator" algorithm — for each declared field in order: if present
coerce to the declared type, if absent substitute the default when one
exists, if absent and required fail with a missing-field failure; check
numeric min/max and enum membership; ignore undeclared fields; stop at the
first violation and return that single failure.  The individual tool
schemas fed to it are translated from the zod schema literals in the
source files. -/

/-- An argument value as received over the wire (a JSON value restricted
to the shapes the schemas use). -/
inductive Value where
  | str (s : String)
  | num (q : ℚ)
  | bool (b : Bool)
  | arr (xs : List String)
  deriving DecidableEq, Repr

/-- Declared type of a schema field.  `number` carries the `.int()` flag
and optional `.min(_)` / `.max(_)` bounds; `enumOf` carries the declared
members. -/
inductive FieldType where
  | string
  | number (isInt : Bool) (lo : Option ℚ) (hi : Option ℚ)
  | boolean
  | enumOf (members : List String)
  | arrayOfString
  deriving DecidableEq, Repr

/-- A field descriptor: declared type, whether the field is required
(zod: no `.optional()`), and its default value when one is declared
(zod: `.default(_)`). -/
structure FieldSpec where
  type : FieldType
  required : Bool
  dflt : Option Value := none
  deriving DecidableEq, Repr

/-- A schema is the ordered list of declared fields. -/
abbrev Schema := List (String × FieldSpec)

/-- Raw arguments: an untyped field-name → value mapping. -/
abbrev RawArgs := List (String × Value)

/-- Validated arguments: field-name → typed value, defaults applied;
absent optional fields without a default are simply not present
(JS `undefined`). -/
abbrev ValidatedArgs := List (String × Value)

/-- First binding for a name in an association list (JS object lookup). -/
def lookupArg (raw : List (String × Value)) (n : String) : Option Value :=
  match raw with
  | [] => none
  | (m, v) :: rest => if m = n then some v else lookupArg rest n

/-- Reason a single field failed validation. -/
inductive FailReason where
  | missingRequired
  | wrongType
  | notInt
  | belowMin (lo : ℚ)
  | aboveMax (hi : ℚ)
  | notInEnum
  deriving DecidableEq, Repr

/-- A structured validation failure: the offending field and the violated
constraint. -/
structure ValidationFailure where
  field : String
  reason : FailReason
  deriving DecidableEq, Repr

/-- Check one present value against its declared type and constraints,
reporting the first violated constraint. -/
def checkValue (name : String) (t : FieldType) (v : Value) :
    Except ValidationFailure Value :=
  match t, v with
  | FieldType.string, Value.str s => Except.ok (Value.str s)
  | FieldType.boolean, Value.bool b => Except.ok (Value.bool b)
  | FieldType.arrayOfString, Value.arr xs => Except.ok (Value.arr xs)
  | FieldType.enumOf members, Value.str s =>
      if s ∈ members then Except.ok (Value.str s)
      else Except.error ⟨name, FailReason.notInEnum⟩
  | FieldType.number isInt lo hi, Value.num q =>
      if isInt ∧ ¬ q.isInt then Except.error ⟨name, FailReason.notInt⟩
      else match lo with
        | some m =>
            if q < m then Except.error ⟨name, FailReason.belowMin m⟩
            else match hi with
              | some M =>
                  if M < q then Except.error ⟨name, FailReason.aboveMax M⟩
                  else Except.ok (Value.num q)
              | none => Except.ok (Value.num q)
        | none => match hi with
            | some M =>
                if M < q then Except.error ⟨name, FailReason.aboveMax M⟩
                else Except.ok (Value.num q)
            | none => Except.ok (Value.num q)
  | _, _ => Except.error ⟨name, FailReason.wrongType⟩

/-- Check one declared field against the raw arguments: present → type and
constraint check; absent with a default → the default; absent and
required → missing-field failure; absent, optional, no default → no
binding. -/
def checkField (name : String) (fs : FieldSpec) (raw : RawArgs) :
    Except ValidationFailure (Option Value) :=
  match lookupArg raw name with
  | some v => (checkValue name fs.type v).map some
  | none =>
      match fs.dflt with
      | some d => Except.ok (some d)
      | none =>
          if fs.required then Except.error ⟨name, FailReason.missingRequired⟩
          else Except.ok none

/-- Validate raw arguments against a schema: fields are processed in
declaration order and validation stops at the first violation, returning
that single structured failure.  Undeclared raw fields are ignored. -/
def validateArgs (schema : Schema) (raw : RawArgs) :
    Except ValidationFailure ValidatedArgs :=
  match schema with
  | [] => Except.ok []
  | (name, fs) :: rest =>
      match checkField name fs raw with
      | Except.error e => Except.error e
      | Except.ok none => validateArgs rest raw
      | Except.ok (some v) =>
          (validateArgs rest raw).map (fun out => (name, v) :: out)

/-- Render a validation failure as the error text of the rejection
outcome. -/
def renderFailure (e : ValidationFailure) : String :=
  match e.reason with
  | FailReason.missingRequired => "missing required field: " ++ e.field
  | _ => "invalid value for field: " ++ e.field

/-- Modelled from the spec: the dispatcher's validation step — if
validation fails, an error outcome is produced and the handler is not
invoked; otherwise the handler runs on the validated arguments. -/
def dispatchValidated (schema : Schema)
    (handler : ValidatedArgs → Outcome) (raw : RawArgs) : Outcome :=
  match validateArgs schema raw with
  | Except.error e => errorOutcome (renderFailure e)
  | Except.ok args => handler args

/-! ## Tool schemas (translated from the zod literals in the source) -/

/-- `count-files` input schema (src/tools/count-files.ts). -/
def countFilesSchema : Schema :=
  [ ("folderPath", ⟨FieldType.string, false, none⟩),
    ("count_files", ⟨FieldType.boolean, false, some (Value.bool true)⟩),
    ("count_folders", ⟨FieldType.boolean, false, some (Value.bool false)⟩),
    ("recursive", ⟨FieldType.boolean, false, some (Value.bool false)⟩),
    ("pattern", ⟨FieldType.string, false, none⟩),
    ("max_depth", ⟨FieldType.number true (some 0) none, false, none⟩),
    ("min_size_kb", ⟨FieldType.number true (some 0) none, false, none⟩),
    ("max_size_kb", ⟨FieldType.number true (some 0) none, false, none⟩),
    ("modified_since_days", ⟨FieldType.number true (some 0) none, false, none⟩) ]

/-- `ping-tool` input schema (src/tools/ping-tool.ts): `count` and
`timeout` are optional strings with NO schema-level default — the
fallback values `'4'` and `'5'` are destructuring defaults inside the
handler body. -/
def pingSchema : Schema :=
  [ ("target", ⟨FieldType.string, true, none⟩),
    ("count", ⟨FieldType.string, false, none⟩),
    ("timeout", ⟨FieldType.string, false, none⟩),
    ("output_path", ⟨FieldType.string, false, none⟩) ]

/-- `read-file` input schema (read-file tool source). -/
def readFileSchema : Schema :=
  [ ("filePaths", ⟨FieldType.string, true, none⟩),
    ("startLine", ⟨FieldType.number true (some 1) none, false, none⟩),
    ("endLine", ⟨FieldType.number true (some 1) none, false, none⟩),
    ("encoding", ⟨FieldType.string, false, some (Value.str "utf-8")⟩),
    ("binary_mode", ⟨FieldType.boolean, false, some (Value.bool false)⟩),
    ("max_bytes", ⟨FieldType.number true (some 1) none, false, none⟩),
    ("timeout", ⟨FieldType.number false none none, false, none⟩) ]

/-- `watch-file-changes` input schema (watch-file-changes tool source). -/
def watchSchema : Schema :=
  [ ("action", ⟨FieldType.enumOf ["start", "stop"], true, none⟩),
    ("target_path", ⟨FieldType.string, true, none⟩),
    ("command", ⟨FieldType.string, false, none⟩),
    ("recursive", ⟨FieldType.boolean, false, some (Value.bool false)⟩) ]

/-- `todo-list-tool` input schema (src/tools/todo-list-tool.ts). -/
def todoSchema : Schema :=
  [ ("operation", ⟨FieldType.string, true, none⟩),
    ("project_name", ⟨FieldType.string, false, none⟩),
    ("task", ⟨FieldType.string, false, none⟩),
    ("task_id", ⟨FieldType.string, false, none⟩),
    ("priority", ⟨FieldType.string, false, none⟩),
    ("due_date", ⟨FieldType.string, false, none⟩) ]

/-! ## Registry bootstrap (src/tools/index.ts, `registryTools`)

The server is modelled by its registry key set: the list of registered
tool names.  A registration function is a server transformer (in the
source, each one calls `server.registerTool(name, ...)` once); an entry of
the import array that is not a function is the `invalid` constructor. -/

/-- One entry of the `allToolFunctions` array: either a registration
function or a non-function import. -/
inductive RegEntry where
  | fn (register : List String → List String)
  | invalid

/-- Whether `typeof registryFn === 'function'` holds. -/
def RegEntry.isFunction : RegEntry → Bool
  | RegEntry.fn _ => true
  | RegEntry.invalid => false

/-- The registration function carried by a function entry. -/
def RegEntry.register? : RegEntry → Option (List String → List String)
  | RegEntry.fn r => some r
  | RegEntry.invalid => none

/-- Result of running the bootstrap: the final server registry, the
`console.error` diagnostics, and the `console.log` lines. -/
structure BootResult where
  server : List String
  errors : List String
  logs : List String

/-- The `forEach` body of `registryTools`: a function entry is invoked
with the server, any other entry is skipped with one `console.error`
diagnostic. -/
def bootstrapStep (acc : List String × List String) (e : RegEntry) :
    List String × List String :=
  match e with
  | RegEntry.fn r => (r acc.1, acc.2)
  | RegEntry.invalid =>
      (acc.1, acc.2 ++ ["An imported tool is not a function:"])

/-- `registryTools(server)`: loop over the import array, calling each
function entry with the server and logging a diagnostic for each
non-function entry, then log the registration count line. -/
def registryTools (entries : List RegEntry) (server : List String) :
    BootResult :=
  let r := entries.foldl bootstrapStep (server, [])
  { server := r.1, errors := r.2,
    logs := [toString entries.length ++ " tools have been registered."] }

/-! ## JSON rendering helpers (JSON.stringify on the value shapes the
handlers produce; pure and total) -/

/-- Four-digit lowercase hex (for JSON \u escapes of control characters). -/
def hex4 (n : Nat) : String :=
  let ds := Nat.toDigits 16 n
  let pad := List.replicate (4 - ds.length) '0'
  String.mk (pad ++ ds)

/-- JSON escaping of one character. -/
def jsonEscapeChar (c : Char) : String :=
  if c = '"' then "\\\""
  else if c = '\\' then "\\\\"
  else if c = '\n' then "\\n"
  else if c = '\r' then "\\r"
  else if c = '\t' then "\\t"
  else if c.toNat = 8 then "\\b"
  else if c.toNat = 12 then "\\f"
  else if c.toNat < 32 then "\\u" ++ hex4 c.toNat
  else String.singleton c

/-- JSON escaping of a string's characters. -/
def jsonEscape (s : String) : String :=
  String.join (s.toList.map jsonEscapeChar)

/-- A JSON string literal. -/
def jsonStr (s : String) : String :=
  "\"" ++ jsonEscape s ++ "\""

/-- `JSON.stringify(m, null, 2)` for a string → string object. -/
def jsonStringifyStrMap (m : List (String × String)) : String :=
  match m with
  | [] => "\x7b\x7d"
  | _ =>
      "\x7b\n" ++
      String.intercalate ",\n"
        (m.map (fun p => "  " ++ jsonStr p.1 ++ ": " ++ jsonStr p.2)) ++
      "\n\x7d"

/-- Insert-or-overwrite into a string → string object, keeping first-write
key order (JS `results[k] = v`). -/
def upsert (m : List (String × String)) (k v : String) :
    List (String × String) :=
  match m with
  | [] => [(k, v)]
  | (ka, va) :: rest =>
      if ka = k then (ka, v) :: rest else (ka, va) :: upsert rest k v

/-- First value bound to a key in a string → string object. -/
def lookupStr (m : List (String × String)) (k : String) : Option String :=
  match m with
  | [] => none
  | (ka, v) :: rest => if ka = k then some v else lookupStr rest k

/-! ## Timeout utility (utils/timeout.ts) -/

/-- `normalizeTimeout(timeout?, defaultTimeout = 120, maxTimeout = 600)`:
substitute the default for an absent value, clamp to
`[1, maxTimeout]` seconds, convert to milliseconds. -/
def normalizeTimeout (timeout : Option ℚ) (defaultTimeout maxTimeout : ℚ) :
    ℚ :=
  let timeoutSeconds := timeout.getD defaultTimeout
  let clampedTimeout := min (max timeoutSeconds 1) maxTimeout
  clampedTimeout * 1000

/-- `normalizeTimeout(timeout)` as every call site in the source invokes
it: with the default parameters 120 and 600. -/
def normalizeTimeoutDefault (timeout : Option ℚ) : ℚ :=
  normalizeTimeout timeout 120 600

/-! ## ping-tool (src/tools/ping-tool.ts) -/

/-- JS falsiness of an optional string (`!x`): absent or empty. -/
def jsFalsy (o : Option String) : Bool :=
  match o with
  | none => true
  | some s => s = ""

/-- Characters `shell-quote` leaves unquoted. -/
def shSafeChar (c : Char) : Bool :=
  c.isAlphanum || c = '_' || c = '-' || c = '.' || c = '/' || c = ':' ||
    c = '@' || c = '%' || c = '+' || c = '='

/-- `quote([s])` from the shell-quote package: a safe word passes through,
anything else is single-quoted with embedded single quotes escaped. -/
def shQuote (s : String) : String :=
  if s ≠ "" ∧ s.toList.all shSafeChar then s
  else "'" ++ String.replace s "'" "'\\''" ++ "'"

/-- Result of `exec(command, cb)`: either a resolution with stdout, or the
callback's error path carrying stdout and stderr. -/
inductive ExecOutcome where
  | ok (stdout : String)
  | err (stdout : String) (stderr : String)

/-- Environment of the ping handler: the OS platform, the subprocess
runner, and the output-file writer (which may throw).  `parsePing`
abstracts the pure, total parsing section of the handler (regex matches,
parseInt/parseFloat and JSON.stringify of the parsed object — none of
which can throw): it maps (platform, target, raw output) to the rendered
JSON text. -/
structure PingEnv where
  platform : String
  exec : String → ExecOutcome
  writeFile : String → String → Except String Unit
  parsePing : String → String → String → String

/-- Validated arguments of `ping-tool` as the handler destructures them
(before the destructuring defaults are applied). -/
structure PingArgs where
  target : String
  count : Option String := none
  timeout : Option String := none
  output_path : Option String := none

/-- The `ping-tool` handler body: destructuring defaults `count = '4'`,
`timeout = '5'`; build the platform-specific command; run it (a failed
run throws `Ping failed: stderr || stdout`); render the parsed JSON;
optionally write it to `output_path`; every throw inside the body is
caught and converted to an error outcome. -/
def pingHandler (env : PingEnv) (params : PingArgs) : Except String Outcome :=
  let target := params.target
  let count := params.count.getD "4"
  let timeout := params.timeout.getD "5"
  let output_path := params.output_path
  tryCatch
    (let command :=
      if env.platform = "win32" then
        "ping -n " ++ shQuote count ++ " -w " ++ shQuote timeout ++ " " ++
          shQuote target
      else
        "ping -c " ++ shQuote count ++ " -W " ++ shQuote timeout ++ " " ++
          shQuote target
     match env.exec command with
     | ExecOutcome.err stdout stderr =>
         Except.error
           ("Ping failed: " ++ (if stderr ≠ "" then stderr else stdout))
     | ExecOutcome.ok stdout =>
         let jsonResult := env.parsePing env.platform target stdout
         match output_path with
         | some p =>
             match env.writeFile p jsonResult with
             | Except.error e => Except.error e
             | Except.ok _ =>
                 Except.ok (textOutcome ("Ping results saved to " ++ p))
         | none => Except.ok (textOutcome jsonResult))
    (fun e => errorOutcome ("Error performing ping: " ++ e))

/-! ## todo-list-tool (src/tools/todo-list-tool.ts)

The persisted todo file is read by `readTodoData()` (fs read plus
`JSON.parse`, either of which may throw) and written by `writeTodoData`;
both are supplied as environment members.  Note the source calls
`await readTodoData()` BEFORE entering its try/catch block. -/

/-- One task of a project (todo-list-tool's `Task`). -/
structure Task where
  id : Nat
  text : String
  priority : String
  due_date : Option String
  completed : Bool
  deriving DecidableEq, Repr

/-- One project (todo-list-tool's `Project`). -/
structure TodoProject where
  name : String
  tasks : List Task
  deriving DecidableEq, Repr

/-- The persisted shape (todo-list-tool's `TodoData`). -/
structure TodoData where
  projects : List TodoProject
  current_project : Option String
  deriving DecidableEq, Repr

/-- Environment of the todo handler: reading the todo file (which throws
on unreadable or malformed JSON content) and writing it back (which may
also throw). -/
structure TodoEnv where
  readTodo : Except String TodoData
  writeTodo : TodoData → Except String Unit

/-- Validated arguments of `todo-list-tool`. -/
structure TodoArgs where
  operation : String
  project_name : Option String := none
  task : Option String := none
  task_id : Option String := none
  priority : Option String := none
  due_date : Option String := none

/-- Value of the leading decimal digits of a character list; `none` when
the first character is not a digit. -/
def leadingDigitsVal (l : List Char) : Option Nat :=
  let rec go : List Char → Nat → Nat
    | [], acc => acc
    | c :: cs, acc =>
        if c.isDigit then go cs (acc * 10 + (c.toNat - 48)) else acc
  match l with
  | [] => none
  | c :: cs => if c.isDigit then some (go (c :: cs) 0) else none

/-- JS `parseInt(s)` restricted to base 10: skip leading whitespace,
optional sign, parse the leading digit run; `none` models `NaN`. -/
def jsParseInt (s : String) : Option Int :=
  match s.data.dropWhile (fun c =>
      c = ' ' || c = '\t' || c = '\n' || c = '\r') with
  | '-' :: rest => (leadingDigitsVal rest).map (fun n => -(n : Int))
  | '+' :: rest => (leadingDigitsVal rest).map (fun n => (n : Int))
  | l => (leadingDigitsVal l).map (fun n => (n : Int))

/-- `t.id === parseInt(task_id)`: false when the parse gave `NaN`. -/
def taskIdMatches (t : Task) (k : Option Int) : Bool :=
  match k with
  | none => false
  | some i => (t.id : Int) = i

/-- `projects.find(p => p.name === name)`. -/
def findProject (ps : List TodoProject) (name : String) :
    Option TodoProject :=
  match ps with
  | [] => none
  | p :: rest => if p.name = name then some p else findProject rest name

/-- Mutation of the project object `find` returned: rewrite the first
project with the given name. -/
def updateFirstProject (ps : List TodoProject) (name : String)
    (f : TodoProject → TodoProject) : List TodoProject :=
  match ps with
  | [] => []
  | p :: rest =>
      if p.name = name then f p :: rest
      else p :: updateFirstProject rest name f

/-- Mutation of the task object `find` returned: rewrite the first task
whose id matches. -/
def updateFirstTask (ts : List Task) (k : Option Int) (f : Task → Task) :
    List Task :=
  match ts with
  | [] => []
  | t :: rest =>
      if taskIdMatches t k then f t :: rest else t :: updateFirstTask rest k f

/-- Fields of one task under `JSON.stringify(…, null, 2)`; an absent
`due_date` (JS `undefined`) is omitted. -/
def renderTaskFields (t : Task) : List String :=
  ["\"id\": " ++ toString t.id,
   "\"text\": " ++ jsonStr t.text,
   "\"priority\": " ++ jsonStr t.priority] ++
  (match t.due_date with
   | some d => ["\"due_date\": " ++ jsonStr d]
   | none => []) ++
  ["\"completed\": " ++ (if t.completed then "true" else "false")]

/-- `JSON.stringify(tasks, null, 2)`. -/
def renderTasksJson (ts : List Task) : String :=
  match ts with
  | [] => "[]"
  | _ =>
      "[\n" ++
      String.intercalate ",\n"
        (ts.map (fun t =>
          "  \x7b\n" ++
          String.intercalate ",\n"
            ((renderTaskFields t).map (fun f => "    " ++ f)) ++
          "\n  \x7d")) ++
      "\n]"

/-- `JSON.stringify(projects.map(p => p.name), null, 2)`. -/
def renderNamesJson (ns : List String) : String :=
  match ns with
  | [] => "[]"
  | _ =>
      "[\n" ++
      String.intercalate ",\n" (ns.map (fun n => "  " ++ jsonStr n)) ++
      "\n]"

/-- The `switch (operation)` body of the todo handler (the part inside its
try block); a throw can arise only from `writeTodoData`. -/
def todoSwitch (env : TodoEnv) (data : TodoData) (params : TodoArgs) :
    Except String Outcome :=
  match params.operation with
  | "create_project" =>
      if jsFalsy params.project_name then
        Except.ok (errorOutcome "Error: 'project_name' is required.")
      else
        let pn := params.project_name.getD ""
        if (findProject data.projects pn).isSome then
          Except.ok
            (errorOutcome ("Error: Project '" ++ pn ++ "' already exists."))
        else do
          let data' :=
            { data with projects := data.projects ++ [⟨pn, []⟩] }
          let _ ← env.writeTodo data'
          Except.ok (textOutcome ("Project '" ++ pn ++ "' created."))
  | "add_task" =>
      if jsFalsy data.current_project then
        Except.ok (errorOutcome
          "Error: No project selected. Use 'switch_project' first.")
      else if jsFalsy params.task then
        Except.ok (errorOutcome "Error: 'task' is required.")
      else
        let cur := data.current_project.getD ""
        match findProject data.projects cur with
        | some _ => do
            let addTask := fun (p : TodoProject) =>
              let new_task : Task :=
                { id := p.tasks.length + 1,
                  text := params.task.getD "",
                  priority :=
                    if jsFalsy params.priority then "medium"
                    else params.priority.getD "",
                  due_date := params.due_date,
                  completed := false }
              { p with tasks := p.tasks ++ [new_task] }
            let data' :=
              { data with
                projects := updateFirstProject data.projects cur addTask }
            let _ ← env.writeTodo data'
            Except.ok (textOutcome ("Task added to project '" ++ cur ++ "'."))
        | none => Except.ok (errorOutcome "Error: Current project not found.")
  | "remove_task" =>
      if jsFalsy data.current_project then
        Except.ok (errorOutcome "Error: No project selected.")
      else if jsFalsy params.task_id then
        Except.ok (errorOutcome "Error: 'task_id' is required.")
      else
        let cur := data.current_project.getD ""
        let tid := params.task_id.getD ""
        match findProject data.projects cur with
        | some _ => do
            let dropTask := fun (p : TodoProject) =>
              { p with
                tasks :=
                  p.tasks.filter (fun t => ¬ taskIdMatches t (jsParseInt tid)) }
            let data' :=
              { data with
                projects := updateFirstProject data.projects cur dropTask }
            let _ ← env.writeTodo data'
            Except.ok (textOutcome ("Task with ID " ++ tid ++ " removed."))
        | none => Except.ok (errorOutcome "Error: Current project not found.")
  | "list_tasks" =>
      if jsFalsy data.current_project then
        Except.ok (errorOutcome "Error: No project selected.")
      else
        let cur := data.current_project.getD ""
        match findProject data.projects cur with
        | some p => Except.ok (textOutcome (renderTasksJson p.tasks))
        | none => Except.ok (errorOutcome "Error: Current project not found.")
  | "complete_task" =>
      if jsFalsy data.current_project then
        Except.ok (errorOutcome "Error: No project selected.")
      else if jsFalsy params.task_id then
        Except.ok (errorOutcome "Error: 'task_id' is required.")
      else
        let cur := data.current_project.getD ""
        let tid := params.task_id.getD ""
        match findProject data.projects cur with
        | some p =>
            if p.tasks.any (fun t => taskIdMatches t (jsParseInt tid)) then do
              let completeTask := fun (q : TodoProject) =>
                { q with
                  tasks :=
                    updateFirstTask q.tasks (jsParseInt tid)
                      (fun t => { t with completed := true }) }
              let data' :=
                { data with
                  projects :=
                    updateFirstProject data.projects cur completeTask }
              let _ ← env.writeTodo data'
              Except.ok (textOutcome
                ("Task with ID " ++ tid ++ " marked as completed."))
            else
              Except.ok (errorOutcome
                ("Error: Task with ID " ++ tid ++ " not found."))
        | none => Except.ok (errorOutcome "Error: Current project not found.")
  | "list_projects" =>
      Except.ok
        (textOutcome (renderNamesJson (data.projects.map (fun p => p.name))))
  | "switch_project" =>
      if jsFalsy params.project_name then
        Except.ok (errorOutcome "Error: 'project_name' is required.")
      else
        let pn := params.project_name.getD ""
        if (findProject data.projects pn).isNone then
          Except.ok
            (errorOutcome ("Error: Project '" ++ pn ++ "' not found."))
        else do
          let data' := { data with current_project := some pn }
          let _ ← env.writeTodo data'
          Except.ok (textOutcome ("Switched to project '" ++ pn ++ "'."))
  | op => Except.ok (errorOutcome ("Error: Unknown operation '" ++ op ++ "'."))

/-- The `todo-list-tool` handler: `let data = await readTodoData()` runs
BEFORE the try/catch, so a throw from reading or parsing the todo file
propagates out of the handler; only the switch body is guarded. -/
def todoHandler (env : TodoEnv) (params : TodoArgs) : Except String Outcome := do
  let data ← env.readTodo
  tryCatch (todoSwitch env data params)
    (fun e => errorOutcome ("Error performing to-do list operation: " ++ e))

/-! ## count-files (src/tools/count-files.ts)

The filesystem reachable from the target path is modelled as a tree of
entries carrying the stat data the walk reads (size, mtime); `listRoot`
gives the target directory's entries (an unreadable directory is the
empty list, matching the caught `readdir` failure), and `matchPattern`
models `new RegExp(pattern).test(name)`. -/

/-- A directory entry together with its stat data. -/
inductive FsEntry where
  | file (name : String) (size : ℚ) (mtimeMs : ℚ)
  | dir (name : String) (size : ℚ) (mtimeMs : ℚ) (children : List FsEntry)
  deriving Repr

/-- Name of an entry. -/
def FsEntry.name : FsEntry → String
  | FsEntry.file n _ _ => n
  | FsEntry.dir n _ _ _ => n

/-- Stat size of an entry. -/
def FsEntry.size : FsEntry → ℚ
  | FsEntry.file _ s _ => s
  | FsEntry.dir _ s _ _ => s

/-- Stat mtime (ms since epoch) of an entry. -/
def FsEntry.mtimeMs : FsEntry → ℚ
  | FsEntry.file _ _ t => t
  | FsEntry.dir _ _ t _ => t

/-- One collected `FileDetails` record. -/
structure FileDetails where
  path : String
  isDir : Bool
  size : ℚ
  modifiedMs : ℚ
  deriving DecidableEq, Repr

/-- The `params` record `listFilesRecursiveForCount` receives (all fields
optional, as in its TS interface; the handler never sets
`includeHidden`). -/
structure WalkParams where
  includeHidden : Option Bool := none
  pattern : Option String := none
  recursive : Option Bool := none
  max_depth : Option Nat := none
  min_size_kb : Option ℚ := none
  max_size_kb : Option ℚ := none
  modified_since_days : Option ℚ := none
  count_files : Option Bool := none
  count_folders : Option Bool := none

/-- JS truthiness of an optional boolean. -/
def jsTruthyB (o : Option Bool) : Bool := o.getD false

/-- `path.join(dir, name)` for the non-degenerate case the walk uses. -/
def pathJoin (a b : String) : String := a ++ "/" ++ b

/-- Environment of the count-files handler. -/
structure CountEnv where
  homedir : String
  pathExists : String → Bool
  listRoot : String → List FsEntry
  matchPattern : String → String → Bool
  nowMs : ℚ

/-- `listFilesRecursiveForCount(dir, params, currentDepth)` walking the
given entry list: skip hidden names (unless `includeHidden`), apply the
name pattern, the modified-since cutoff, the size filters (files only),
collect directory entries when `count_folders`, recurse into
subdirectories while `currentDepth < max_depth`, collect file entries
when `count_files`. -/
def walkCount (env : CountEnv) (p : WalkParams) (dir : String)
    (depth : Nat) : List FsEntry → List FileDetails
  | [] => []
  | item :: rest =>
      let itemPath := pathJoin dir item.name
      if ¬ jsTruthyB p.includeHidden ∧ item.name.startsWith "." then
        walkCount env p dir depth rest
      else if p.pattern.isSome ∧
          ¬ env.matchPattern (p.pattern.getD "") item.name then
        walkCount env p dir depth rest
      else if p.modified_since_days.isSome ∧
          item.mtimeMs < env.nowMs - (p.modified_since_days.getD 0) * 86400000
          then
        walkCount env p dir depth rest
      else
        match item with
        | FsEntry.dir _ size mtime children =>
            (if jsTruthyB p.count_folders then
              [⟨itemPath, true, size, mtime⟩] else []) ++
            (if jsTruthyB p.recursive ∧
                (p.max_depth.isNone ∨ depth < p.max_depth.getD 0) then
              walkCount env p itemPath (depth + 1) children else []) ++
            walkCount env p dir depth rest
        | FsEntry.file _ size mtime =>
            if p.min_size_kb.isSome ∧ size < (p.min_size_kb.getD 0) * 1024 then
              walkCount env p dir depth rest
            else if p.max_size_kb.isSome ∧
                size > (p.max_size_kb.getD 0) * 1024 then
              walkCount env p dir depth rest
            else
              (if jsTruthyB p.count_files then
                [⟨itemPath, false, size, mtime⟩] else []) ++
              walkCount env p dir depth rest

/-- Validated arguments of `count-files` (schema defaults applied). -/
structure CountArgs where
  folderPath : Option String := none
  count_files : Bool := true
  count_folders : Bool := false
  recursive : Bool := false
  pattern : Option String := none
  max_depth : Option Nat := none
  min_size_kb : Option ℚ := none
  max_size_kb : Option ℚ := none
  modified_since_days : Option ℚ := none

/-- `params.folderPath || path.join(os.homedir(), 'Desktop')`: JS `||`
falls back on an absent or empty folderPath. -/
def countTargetPath (env : CountEnv) (params : CountArgs) : String :=
  match params.folderPath with
  | some s => if s = "" then pathJoin env.homedir "Desktop" else s
  | none => pathJoin env.homedir "Desktop"

/-- The `count-files` handler: default the target to `~/Desktop`
(JS `||`, so an empty `folderPath` also falls back), reject a
non-existent path with an error outcome, reject counting neither kind,
otherwise walk and report the counts.  The trailing `\\n` in the source
template literals is a literal backslash-n, reproduced here. -/
def countFilesHandler (env : CountEnv) (params : CountArgs) : Outcome :=
  let targetPath := countTargetPath env params
  if ¬ env.pathExists targetPath then
    errorOutcome ("Error: Path does not exist: " ++ targetPath)
  else if ¬ params.count_files ∧ ¬ params.count_folders then
    errorOutcome "Error: You must choose to count files, folders, or both."
  else
    let wp : WalkParams :=
      { pattern := params.pattern,
        recursive := some params.recursive,
        max_depth := params.max_depth,
        min_size_kb := params.min_size_kb,
        max_size_kb := params.max_size_kb,
        modified_since_days := params.modified_since_days,
        count_files := some params.count_files,
        count_folders := some params.count_folders }
    let items := walkCount env wp targetPath 0 (env.listRoot targetPath)
    let fileCount := (items.filter (fun i => ¬ i.isDir)).length
    let folderCount := (items.filter (fun i => i.isDir)).length
    let resultText :=
      "Analysis of '" ++ targetPath ++ "':\\n" ++
      (if params.count_files then
        "- Files found: " ++ toString fileCount ++ "\\n" else "") ++
      (if params.count_folders then
        "- Folders found: " ++ toString folderCount ++ "\\n" else "")
    textOutcome resultText.trim

/-! ## read-file (read-file tool source)

The filesystem is an oracle of per-path results; each per-path operation
may throw (`Except.error`), and such a throw is caught by the per-file
catch and recorded as an error string for that path.  `timedOut` models
which side of the `withTimeout` race resolves first: when true, the
overall operation rejects with the timeout message and the handler's
outer catch produces the error outcome. -/

/-- Environment of the read-file handler. -/
structure ReadFs where
  timedOut : Bool
  pathExists : String → Bool
  readFileFull : String → String → Except String String
  readFileBounded : String → Nat → String → Except String String
  statSize : String → Except String Nat
  readHex : String → Nat → Except String String

/-- Validated arguments of `read-file` (schema defaults applied). -/
structure ReadArgs where
  filePaths : String
  startLine : Option Nat := none
  endLine : Option Nat := none
  encoding : String := "utf-8"
  binary_mode : Bool := false
  max_bytes : Option Nat := none
  timeout : Option ℚ := none

/-- Splitting a character list at a delimiter predicate, accumulating the
current component in reverse (the splitter shared by the string-split
models below). -/
def splitCharsAux (p : Char → Bool) : List Char → List Char → List String
  | [], acc => [String.mk acc.reverse]
  | c :: cs, acc =>
      if p c then String.mk acc.reverse :: splitCharsAux p cs []
      else splitCharsAux p cs (c :: acc)

/-- JS `s.split(c)` for a one-character separator. -/
def jsSplit (s : String) (p : Char → Bool) : List String :=
  splitCharsAux p s.data []

/-- JS `content.split(/\r?\n/)`: CRLF and LF both delimit. -/
def splitLinesAux : List Char → List Char → List String
  | [], acc => [String.mk acc.reverse]
  | '\r' :: '\n' :: cs, acc => String.mk acc.reverse :: splitLinesAux cs []
  | '\n' :: cs, acc => String.mk acc.reverse :: splitLinesAux cs []
  | c :: cs, acc => splitLinesAux cs (c :: acc)

/-- JS `content.split(/\r?\n/)`. -/
def splitJsLines (s : String) : List String :=
  splitLinesAux s.data []

/-- The per-file body inside the per-file try: binary mode reads and
hex-dumps up to `max_bytes` bytes; text mode reads (a prefix of) the
file, splits into lines and applies the `startLine`/`endLine` slice. -/
def readOneContent (env : ReadFs) (args : ReadArgs) (filePath : String) :
    Except String String :=
  if args.binary_mode then do
    let size ← env.statSize filePath
    let bytesToRead :=
      match args.max_bytes with
      | some m => min m size
      | none => size
    let hex ← env.readHex filePath bytesToRead
    Except.ok ("Read " ++ toString bytesToRead ++ " bytes (hex): " ++ hex)
  else do
    let fileContent ←
      match args.max_bytes with
      | some m => env.readFileBounded filePath m args.encoding
      | none => env.readFileFull filePath args.encoding
    let lines := splitJsLines fileContent
    if args.startLine.isSome ∨ args.endLine.isSome then
      let effectiveStartLine :=
        match args.startLine with
        | some s => s - 1
        | none => 0
      let effectiveEndLine :=
        match args.endLine with
        | some e => e
        | none => lines.length
      if effectiveStartLine ≥ lines.length then
        Except.ok ("Error: startLine " ++ toString (args.startLine.getD 0) ++
          " is out of bounds. File only has " ++ toString lines.length ++
          " lines.")
      else
        Except.ok (String.intercalate "\n"
          ((lines.drop effectiveStartLine).take
            (effectiveEndLine - effectiveStartLine)))
    else
      Except.ok (String.intercalate "\n" lines)

/-- One iteration of the read loop: a missing path records a
file-not-found message; a throw from the per-file body records an
error-reading message; otherwise the content is recorded. -/
def readFileOne (env : ReadFs) (args : ReadArgs)
    (results : List (String × String)) (filePath : String) :
    List (String × String) :=
  if ¬ env.pathExists filePath then
    upsert results filePath ("Error: File not found at path: " ++ filePath)
  else
    match readOneContent env args filePath with
    | Except.ok content => upsert results filePath content
    | Except.error e => upsert results filePath ("Error reading file: " ++ e)

/-- `filePaths.split(' ').filter(p => p)`: the paths the operation
iterates over. -/
def readFilePathsOf (args : ReadArgs) : List String :=
  (jsSplit args.filePaths (fun c => c = ' ')).filter (fun p => p ≠ "")

/-- The results object the operation builds: the space-separated
`filePaths`, empty components filtered out, processed left to right. -/
def readFileResults (env : ReadFs) (args : ReadArgs) :
    List (String × String) :=
  (readFilePathsOf args).foldl (readFileOne env args) []

/-- The `read-file` handler: normalize the timeout, run the operation
under `withTimeout`; a timeout rejection is caught by the outer catch and
produces the error outcome; otherwise the results object is serialized
into a success outcome (per-file failures are messages inside it, not an
error flag). -/
def readFileHandler (env : ReadFs) (args : ReadArgs) : Outcome :=
  let timeoutMs := normalizeTimeoutDefault args.timeout
  if env.timedOut then
    errorOutcome ("An unexpected error occurred: " ++
      "File reading operation timed out after " ++ toString timeoutMs ++ "ms")
  else
    textOutcome (jsonStringifyStrMap (readFileResults env args))

/-! ## watch-file-changes (watch-file-changes tool source)

The module-scoped `activeWatchers` map is modelled by the list of
normalized paths currently watched; the handler is a state transformer
on it. -/

/-- Environment of the watch handler: `path.resolve`, `fs.existsSync`,
and `fs.watch` (which may throw). -/
structure WatchEnv where
  resolve : String → String
  existsSync : String → Bool
  watch : String → Except String Unit

/-- Validated arguments of `watch-file-changes` (schema defaults
applied; `action` has passed the enum check). -/
structure WatchArgs where
  action : String
  target_path : String
  command : Option String := none
  recursive : Bool := false

/-- The `watch-file-changes` handler as a transformer of the active
watcher map: `start` requires a command, no existing watcher for the
normalized path, and an existing path, in that order; `stop` requires an
active watcher.  Every branch returns an Outcome, and only the listed
success branches change the map. -/
def watchHandler (env : WatchEnv) (m : List String) (p : WatchArgs) :
    List String × Outcome :=
  let normalizedPath := env.resolve p.target_path
  if p.action = "start" then
    if jsFalsy p.command then
      (m, errorOutcome "Error: A command must be provided to start watching.")
    else if normalizedPath ∈ m then
      (m, errorOutcome ("Already watching path: " ++ normalizedPath ++
        ". Stop it first."))
    else if ¬ env.existsSync normalizedPath then
      (m, errorOutcome ("Error: Path does not exist: " ++ normalizedPath))
    else
      match env.watch normalizedPath with
      | Except.error e =>
          (m, errorOutcome ("Failed to start watcher: " ++ e))
      | Except.ok _ =>
          (m ++ [normalizedPath],
           textOutcome ("Started watching for changes in " ++
             normalizedPath ++ "."))
  else if p.action = "stop" then
    if normalizedPath ∈ m then
      (m.filter (fun q => q ≠ normalizedPath),
       textOutcome ("Stopped watching for changes in " ++ normalizedPath ++
         "."))
    else
      (m, errorOutcome ("No active watcher found for path: " ++
        normalizedPath))
  else
    (m, errorOutcome "Invalid action specified.")

/-! ## get-system-info (get-system-info tool source) -/

/-- The OS facts the `os` module can report.  The handler queries only
the first nine; `nowMs`, `loadavg` and `homedir` stand for OS state the
module exposes but this handler never reads. -/
structure OsState where
  platform : String
  osType : String
  osRelease : String
  arch : String
  hostname : String
  totalmem : ℚ
  freemem : ℚ
  cpus : List String
  uptime : ℚ
  nowMs : ℚ
  loadavg : List ℚ
  homedir : String

/-- JS `Math.round`: floor of x + 1/2. -/
def jsRound (q : ℚ) : Int := ⌊q + 1 / 2⌋

/-- The `get-system-info` handler: assemble the queried values into the
`systemInfo` object and return its `JSON.stringify(…, null, 2)` text; the
computation is pure, so the catch branch is unreachable. -/
def getSystemInfoHandler (s : OsState) : Outcome :=
  let cpuModel :=
    match s.cpus with
    | [] => "N/A"
    | c :: _ => c
  textOutcome
    ("\x7b\n" ++
     "  \"platform\": " ++ jsonStr s.platform ++ ",\n" ++
     "  \"osType\": " ++ jsonStr s.osType ++ ",\n" ++
     "  \"osRelease\": " ++ jsonStr s.osRelease ++ ",\n" ++
     "  \"architecture\": " ++ jsonStr s.arch ++ ",\n" ++
     "  \"hostname\": " ++ jsonStr s.hostname ++ ",\n" ++
     "  \"totalMemoryMB\": " ++
       toString (jsRound (s.totalmem / (1024 * 1024))) ++ ",\n" ++
     "  \"freeMemoryMB\": " ++
       toString (jsRound (s.freemem / (1024 * 1024))) ++ ",\n" ++
     "  \"cpuCount\": " ++ toString s.cpus.length ++ ",\n" ++
     "  \"cpuModel\": " ++ jsonStr cpuModel ++ ",\n" ++
     "  \"uptimeSeconds\": " ++ toString (jsRound s.uptime) ++ "\n" ++
     "\x7d")

/-! ## Process-level safety net (src/index.ts) -/

/-- An observable effect of a process-boundary handler. -/
inductive ProcessEffect where
  | logError (s : String)
  | exitProcess (code : Nat)
  deriving DecidableEq, Repr

/-- The `process.on('uncaughtException', …)` handler: log the error,
then `process.exit(1)`. -/
def uncaughtExceptionHandler (error : String) : List ProcessEffect :=
  [ProcessEffect.logError ("Uncaught Exception: " ++ error),
   ProcessEffect.exitProcess 1]

/-- The `process.on('unhandledRejection', …)` handler: log the reason,
then `process.exit(1)`. -/
def unhandledRejectionHandler (reason : String) : List ProcessEffect :=
  [ProcessEffect.logError ("Unhandled Promise Rejection: " ++ reason),
   ProcessEffect.exitProcess 1]

/-! ## Auxiliary lemmas -/

/-- The bootstrap fold: function entries are applied in order, one
diagnostic is accumulated per non-function entry. -/
theorem bootstrap_foldl (entries : List RegEntry) (s errs : List String) :
    entries.foldl bootstrapStep (s, errs) =
      ((entries.filterMap RegEntry.register?).foldl (fun st r => r st) s,
        errs ++ (entries.filter (fun e => !e.isFunction)).map
          (fun _ => "An imported tool is not a function:")) := by
  induction entries generalizing s errs with
  | nil => simp
  | cons e rest ih =>
      cases e with
      | fn r =>
          simp [bootstrapStep, RegEntry.register?, RegEntry.isFunction, ih]
      | invalid =>
          simp [bootstrapStep, RegEntry.register?, RegEntry.isFunction, ih]

end MCP

namespace MCP

/-- A JS try/catch block always resolves normally: the catch clause maps
any thrown value to a returned Outcome. -/
theorem tryCatch_isOk (body : Except String Outcome) (h : String → Outcome) :
    ∃ o, tryCatch body h = Except.ok o := by
  cases body with
  | ok o => exact ⟨o, rfl⟩
  | error e => exact ⟨h e, rfl⟩

/-- A todo environment whose persisted `todo-list.json` holds malformed
JSON: `readTodoData()` throws the `JSON.parse` error. -/
def todoEnvBadJson : TodoEnv :=
  { readTodo := Except.error "Unexpected token h in JSON at position 0",
    writeTodo := fun _ => Except.ok () }

/-- An environment in which ping succeeds. -/
def pingEnvDemo : PingEnv :=
  { platform := "linux",
    exec := fun _ =>
      ExecOutcome.ok "1 packets transmitted, 1 received, 0% packet loss",
    writeFile := fun _ _ => Except.ok (),
    parsePing := fun _ t raw => jsonStr t ++ jsonStr raw }

/-- A todo environment with an empty, well-formed todo file. -/
def todoEnvEmpty : TodoEnv :=
  { readTodo := Except.ok { projects := [], current_project := none },
    writeTodo := fun _ => Except.ok () }

/-- A field that is absent from the raw arguments and carries a default
validates to that default. -/
theorem checkField_absent_default (n : String) (fs : FieldSpec)
    (raw : RawArgs) (d : Value) (h1 : lookupArg raw n = none)
    (h2 : fs.dflt = some d) : checkField n fs raw = Except.ok (some d) := by
  unfold checkField
  rw [h1, h2]

/-- Looking up the key just written. -/
theorem lookupStr_upsert_self (m : List (String × String)) (k v : String) :
    lookupStr (upsert m k v) k = some v := by
  induction m with
  | nil => simp [upsert, lookupStr]
  | cons p rest ih =>
      obtain ⟨ka, va⟩ := p
      by_cases h : ka = k
      · subst h
        simp [upsert, lookupStr]
      · simp [upsert, lookupStr, h, ih]

/-- Writing one key leaves the others unchanged. -/
theorem lookupStr_upsert_other (m : List (String × String)) (k v q : String)
    (h : q ≠ k) : lookupStr (upsert m k v) q = lookupStr m q := by
  induction m with
  | nil => simp [upsert, lookupStr, Ne.symm h]
  | cons p rest ih =>
      obtain ⟨ka, va⟩ := p
      by_cases hk : ka = k
      · subst hk
        simp [upsert, lookupStr, Ne.symm h]
      · simp [upsert, lookupStr, hk, ih]

/-- Processing one path only writes that path's key. -/
theorem readFileOne_preserves (env : ReadFs) (args : ReadArgs)
    (acc : List (String × String)) (q p : String) (h : p ≠ q) :
    lookupStr (readFileOne env args acc q) p = lookupStr acc p := by
  unfold readFileOne
  by_cases he : env.pathExists q
  · cases hc : readOneContent env args q with
    | ok c => simp [he, hc, lookupStr_upsert_other _ _ _ _ h]
    | error e => simp [he, hc, lookupStr_upsert_other _ _ _ _ h]
  · simp [he, lookupStr_upsert_other _ _ _ _ h]

/-- Processing a non-existent path records the file-not-found message. -/
theorem readFileOne_missing (env : ReadFs) (args : ReadArgs)
    (acc : List (String × String)) (p : String)
    (hex : env.pathExists p = false) :
    readFileOne env args acc p =
      upsert acc p ("Error: File not found at path: " ++ p) := by
  unfold readFileOne
  simp [hex]

/-- Over the whole loop: a non-existent path that occurs among the
processed paths (or whose message is already recorded) ends up mapped to
the file-not-found message. -/
theorem readFile_results_missing (env : ReadFs) (args : ReadArgs)
    (p : String) (hex : env.pathExists p = false) :
    ∀ (paths : List String) (acc : List (String × String)),
      (p ∈ paths ∨ lookupStr acc p =
        some ("Error: File not found at path: " ++ p)) →
      lookupStr (paths.foldl (readFileOne env args) acc) p =
        some ("Error: File not found at path: " ++ p) := by
  intro paths
  induction paths with
  | nil =>
      intro acc h
      rcases h with h | h
      · exact absurd h (List.not_mem_nil _)
      · simpa using h
  | cons q rest ih =>
      intro acc h
      simp only [List.foldl_cons]
      by_cases hpq : p = q
      · subst hpq
        apply ih
        right
        rw [readFileOne_missing env args acc p hex]
        exact lookupStr_upsert_self acc p _
      · apply ih
        rcases h with h | h
        · rcases List.mem_cons.mp h with heq | hmem
          · exact absurd heq hpq
          · exact Or.inl hmem
        · right
          rw [readFileOne_preserves env args acc q p hpq]
          exact h

/-! ## The claims -/

/-- C1 counterexample: the todo-list handler performs
`await readTodoData()` before entering its try/catch, so with malformed
JSON in the todo file the invocation does NOT resolve to an Outcome —
the parse exception propagates out of the handler. -/
theorem C1_counterexample :
    todoHandler todoEnvBadJson { operation := "list_projects" } =
      Except.error "Unexpected token h in JSON at position 0" := rfl

/-- C1 (amended): the ping-tool handler resolves to an Outcome on every
code path (its whole body sits inside try/catch), and the todo-list
handler resolves to an Outcome whenever its initial read of the todo
file succeeds — the one uncaught path is a throw from that pre-try
read. -/
theorem C1_handlers_resolve_to_outcome :
    (∀ (env : PingEnv) (p : PingArgs),
      ∃ o, pingHandler env p = Except.ok o) ∧
    (∀ (env : TodoEnv) (d : TodoData) (p : TodoArgs),
      env.readTodo = Except.ok d →
      ∃ o, todoHandler env p = Except.ok o) := by
  constructor
  · intro env p
    unfold pingHandler
    exact tryCatch_isOk _ _
  · intro env d p h
    unfold todoHandler
    rw [h]
    show ∃ o, tryCatch (todoSwitch env d p)
      (fun e =>
        errorOutcome ("Error performing to-do list operation: " ++ e)) =
      Except.ok o
    exact tryCatch_isOk _ _

/-- Witness for C1 (amended): a concrete ping invocation and a concrete
todo invocation with a readable todo file both resolve. -/
theorem C1_witness :
    (∃ o, pingHandler pingEnvDemo { target := "localhost" } =
      Except.ok o) ∧
    (∃ o, todoHandler todoEnvEmpty { operation := "list_projects" } =
      Except.ok o) :=
  ⟨C1_handlers_resolve_to_outcome.1 pingEnvDemo { target := "localhost" },
   C1_handlers_resolve_to_outcome.2 todoEnvEmpty
     { projects := [], current_project := none }
     { operation := "list_projects" } rfl⟩

/-- C3: validation processes declared fields in order and stops at the
first violation, returning that single structured failure, never an
aggregate — a schema whose first field check fails yields exactly that
failure whatever later fields would do, and a raw object violating two
declared constraints reports only the first. -/
theorem C3_validation_returns_first_failure :
    (∀ (name : String) (fs : FieldSpec) (rest : Schema) (raw : RawArgs)
        (e : ValidationFailure),
      checkField name fs raw = Except.error e →
      validateArgs ((name, fs) :: rest) raw = Except.error e) ∧
    validateArgs
      [("alpha", ⟨FieldType.number false (some 0) none, true, none⟩),
       ("beta", ⟨FieldType.boolean, true, none⟩)]
      [("alpha", Value.str "x"), ("beta", Value.num 7)] =
      Except.error ⟨"alpha", FailReason.wrongType⟩ := by
  constructor
  · intro name fs rest raw e h
    unfold validateArgs
    rw [h]
  · rfl

/-- Witness for C3: the enum-violation scenario — a two-field schema with
the first field violating its enum and the second missing reports only
the enum violation on the first field. -/
theorem C3_witness :
    validateArgs
      [("mode", ⟨FieldType.enumOf ["a", "b"], true, none⟩),
       ("level", ⟨FieldType.number false (some 0) none, true, none⟩)]
      [("mode", Value.str "c")] =
      Except.error ⟨"mode", FailReason.notInEnum⟩ :=
  C3_validation_returns_first_failure.1 "mode"
    ⟨FieldType.enumOf ["a", "b"], true, none⟩
    [("level", ⟨FieldType.number false (some 0) none, true, none⟩)]
    [("mode", Value.str "c")] ⟨"mode", FailReason.notInEnum⟩ rfl

/-- C4 counterexample: a ping-tool call with empty arguments does not
reach the handler at all — validation fails on the required `target` —
and the `count` field of the ping schema carries no default; so the
claim's "handler receives count = 4 for ping-tool" is false at the
empty-argument input. -/
theorem C4_counterexample :
    validateArgs pingSchema [] =
      Except.error ⟨"target", FailReason.missingRequired⟩ ∧
    (pingSchema.lookup "count").map FieldSpec.dflt = some none ∧
    dispatchValidated pingSchema (fun _ => textOutcome "handler ran") [] =
      errorOutcome "missing required field: target" :=
  ⟨rfl, rfl, rfl⟩

/-- C4 (amended): every declared field that is optional and carries a
schema-level default is substituted when absent — in particular
count-files' `count_files = true`, `count_folders = false`,
`recursive = false` (and read-file's `encoding`/`binary_mode`) — while
ping-tool's `count` has no schema default: its `'4'` is a destructuring
default inside the handler body, so an invocation without `count`
behaves exactly as one with `count = '4'`. -/
theorem C4_absent_fields_get_defaults :
    (∀ (schema : Schema) (raw : RawArgs) (out : ValidatedArgs) (n : String)
        (fs : FieldSpec) (d : Value),
      validateArgs schema raw = Except.ok out →
      (n, fs) ∈ schema → lookupArg raw n = none → fs.dflt = some d →
      (n, d) ∈ out) ∧
    validateArgs countFilesSchema [] =
      Except.ok
        [("count_files", Value.bool true),
         ("count_folders", Value.bool false),
         ("recursive", Value.bool false)] ∧
    validateArgs readFileSchema [("filePaths", Value.str "notes.txt")] =
      Except.ok
        [("filePaths", Value.str "notes.txt"),
         ("encoding", Value.str "utf-8"),
         ("binary_mode", Value.bool false)] ∧
    (∀ (env : PingEnv) (p : PingArgs), p.count = none →
      pingHandler env p = pingHandler env { p with count := some "4" }) := by
  refine ⟨?_, rfl, rfl, ?_⟩
  · intro schema
    induction schema with
    | nil =>
        intro raw out n fs d _ hm
        exact absurd hm (List.not_mem_nil _)
    | cons hd rest ih =>
        intro raw out n fs d hv hm hraw hdflt
        obtain ⟨m, fs'⟩ := hd
        unfold validateArgs at hv
        cases hcf : checkField m fs' raw with
        | error e => rw [hcf] at hv; exact absurd hv (by simp)
        | ok ov =>
            rw [hcf] at hv
            cases ov with
            | none =>
                rcases List.mem_cons.mp hm with heq | hmem
                · obtain ⟨hn, hfs⟩ := Prod.mk.injEq .. |>.mp heq.symm
                  subst hn
                  subst hfs
                  rw [checkField_absent_default m fs' raw d hraw hdflt] at hcf
                  exact absurd hcf (by simp)
                · exact ih raw out n fs d hv hmem hraw hdflt
            | some v =>
                cases hrest : validateArgs rest raw with
                | error e =>
                    rw [hrest] at hv
                    exact absurd hv (by simp [Except.map])
                | ok out' =>
                    rw [hrest] at hv
                    simp only [Except.map] at hv
                    obtain rfl : (m, v) :: out' = out := by
                      injection hv
                    rcases List.mem_cons.mp hm with heq | hmem
                    · obtain ⟨hn, hfs⟩ := Prod.mk.injEq .. |>.mp heq.symm
                      subst hn
                      subst hfs
                      rw [checkField_absent_default m fs' raw d hraw
                        hdflt] at hcf
                      have hdv : d = v := by
                        injection hcf with h1
                        injection h1
                      subst hdv
                      exact List.mem_cons_self _ _
                    · exact List.mem_cons_of_mem _
                        (ih raw out' n fs d hrest hmem hraw hdflt)
  · intro env p h
    unfold pingHandler
    rw [h]
    rfl

/-- Witness for C4 (amended): `count_files` receives its default `true`
on an empty call, and a concrete ping invocation without `count` equals
the same invocation with `count = '4'`. -/
theorem C4_witness :
    ("count_files", Value.bool true) ∈
      [("count_files", Value.bool true), ("count_folders", Value.bool false),
       ("recursive", Value.bool false)] ∧
    pingHandler pingEnvDemo { target := "h" } =
      pingHandler pingEnvDemo { target := "h", count := some "4" } :=
  ⟨C4_absent_fields_get_defaults.1 countFilesSchema [] _ "count_files"
      ⟨FieldType.boolean, false, some (Value.bool true)⟩ (Value.bool true)
      rfl (by decide) rfl rfl,
   C4_absent_fields_get_defaults.2.2.2 pingEnvDemo { target := "h" } rfl⟩

/-- C5: a numeric field value strictly below the declared minimum or
strictly above the declared maximum fails validation (and the handler is
never invoked on a validation failure — the dispatch result is
independent of the handler), while the boundary values themselves pass;
concretely, count-files' `max_depth` rejects −1 and accepts 0, and
read-file's `startLine` rejects 0 and accepts 1. -/
theorem C5_numeric_min_max_enforced :
    (∀ (name : String) (isInt : Bool) (mn v : ℚ) (mx : Option ℚ),
      v < mn →
      ∃ r, checkValue name (FieldType.number isInt (some mn) mx)
        (Value.num v) = Except.error ⟨name, r⟩) ∧
    (∀ (name : String) (isInt : Bool) (lo : Option ℚ) (mx v : ℚ),
      mx < v →
      ∃ r, checkValue name (FieldType.number isInt lo (some mx))
        (Value.num v) = Except.error ⟨name, r⟩) ∧
    (∀ (name : String) (isInt : Bool) (mn mx : ℚ),
      (isInt = true → mn.isInt = true) → (isInt = true → mx.isInt = true) →
      mn ≤ mx →
      checkValue name (FieldType.number isInt (some mn) (some mx))
        (Value.num mn) = Except.ok (Value.num mn) ∧
      checkValue name (FieldType.number isInt (some mn) (some mx))
        (Value.num mx) = Except.ok (Value.num mx)) ∧
    (∀ (schema : Schema) (raw : RawArgs) (e : ValidationFailure)
        (h₁ h₂ : ValidatedArgs → Outcome),
      validateArgs schema raw = Except.error e →
      dispatchValidated schema h₁ raw = dispatchValidated schema h₂ raw) ∧
    validateArgs countFilesSchema [("max_depth", Value.num (-1))] =
      Except.error ⟨"max_depth", FailReason.belowMin 0⟩ ∧
    validateArgs countFilesSchema [("max_depth", Value.num 0)] =
      Except.ok
        [("count_files", Value.bool true),
         ("count_folders", Value.bool false),
         ("recursive", Value.bool false), ("max_depth", Value.num 0)] ∧
    validateArgs readFileSchema
        [("filePaths", Value.str "a.txt"), ("startLine", Value.num 0)] =
      Except.error ⟨"startLine", FailReason.belowMin 1⟩ ∧
    validateArgs readFileSchema
        [("filePaths", Value.str "a.txt"), ("startLine", Value.num 1)] =
      Except.ok
        [("filePaths", Value.str "a.txt"), ("startLine", Value.num 1),
         ("encoding", Value.str "utf-8"), ("binary_mode", Value.bool false)]
    := by
  refine ⟨?_, ?_, ?_, ?_, rfl, rfl, rfl, rfl⟩
  · intro name isInt mn v mx hv
    by_cases hI : (isInt = true ∧ ¬ v.isInt = true)
    · refine ⟨FailReason.notInt, ?_⟩
      unfold checkValue
      simp only [if_pos hI]
    · refine ⟨FailReason.belowMin mn, ?_⟩
      unfold checkValue
      simp only [if_neg hI, if_pos hv]
  · intro name isInt lo mx v hv
    by_cases hI : (isInt = true ∧ ¬ v.isInt = true)
    · refine ⟨FailReason.notInt, ?_⟩
      unfold checkValue
      simp only [if_pos hI]
    · cases lo with
      | none =>
          refine ⟨FailReason.aboveMax mx, ?_⟩
          unfold checkValue
          simp only [if_neg hI, if_pos hv]
      | some m =>
          by_cases hm : v < m
          · refine ⟨FailReason.belowMin m, ?_⟩
            unfold checkValue
            simp only [if_neg hI, if_pos hm]
          · refine ⟨FailReason.aboveMax mx, ?_⟩
            unfold checkValue
            simp only [if_neg hI, if_neg hm, if_pos hv]
  · intro name isInt mn mx hmn hmx hle
    have h₁ : ¬ (isInt = true ∧ ¬ mn.isInt = true) := by
      rintro ⟨hi, hni⟩
      exact hni (hmn hi)
    have h₂ : ¬ (isInt = true ∧ ¬ mx.isInt = true) := by
      rintro ⟨hi, hni⟩
      exact hni (hmx hi)
    have hA : ¬ mn < mn := lt_irrefl mn
    have hB : ¬ mx < mn := not_lt.mpr hle
    have hC : ¬ mx < mx := lt_irrefl mx
    constructor
    · unfold checkValue
      simp only [if_neg h₁, if_neg hA, if_neg hB]
    · unfold checkValue
      simp only [if_neg h₂, if_neg hB, if_neg hC]
  · intro schema raw e h₁ h₂ hv
    unfold dispatchValidated
    rw [hv]

/-- Witness for C5: `max_depth = −1` fails below its minimum 0, a value
11 fails above a maximum 10, the boundaries 0 and 10 pass, and the
dispatch outcome of a failing validation is the same under two different
handlers. -/
theorem C5_witness :
    (∃ r, checkValue "max_depth" (FieldType.number true (some 0) none)
      (Value.num (-1)) = Except.error ⟨"max_depth", r⟩) ∧
    (∃ r, checkValue "limit" (FieldType.number false (some 0) (some 10))
      (Value.num 11) = Except.error ⟨"limit", r⟩) ∧
    (checkValue "limit" (FieldType.number false (some 0) (some 10))
        (Value.num 0) = Except.ok (Value.num 0) ∧
      checkValue "limit" (FieldType.number false (some 0) (some 10))
        (Value.num 10) = Except.ok (Value.num 10)) ∧
    dispatchValidated countFilesSchema (fun _ => textOutcome "ran")
        [("max_depth", Value.num (-1))] =
      dispatchValidated countFilesSchema (fun _ => errorOutcome "spy")
        [("max_depth", Value.num (-1))] :=
  ⟨C5_numeric_min_max_enforced.1 "max_depth" true 0 (-1) none (by norm_num),
   C5_numeric_min_max_enforced.2.1 "limit" false (some 0) 10 11
     (by norm_num),
   C5_numeric_min_max_enforced.2.2.1 "limit" false 0 10
     (fun h => by cases h) (fun h => by cases h) (by norm_num),
   C5_numeric_min_max_enforced.2.2.2.1 countFilesSchema
     [("max_depth", Value.num (-1))] ⟨"max_depth", FailReason.belowMin 0⟩
     (fun _ => textOutcome "ran") (fun _ => errorOutcome "spy") rfl⟩

/-- A filesystem in which no path exists. -/
def readFsMissing : ReadFs :=
  { timedOut := false,
    pathExists := fun _ => false,
    readFileFull := fun _ _ => Except.error "ENOENT",
    readFileBounded := fun _ _ _ => Except.error "ENOENT",
    statSize := fun _ => Except.error "ENOENT",
    readHex := fun _ _ => Except.error "ENOENT" }

/-- A count-files environment in which no path exists. -/
def countEnvMissing : CountEnv :=
  { homedir := "/home/u",
    pathExists := fun _ => false,
    listRoot := fun _ => [],
    matchPattern := fun _ _ => true,
    nowMs := 0 }

/-- C6 counterexample: read-file invoked on a non-existent file does NOT
return an Outcome with `isError = true` — it returns a success Outcome
(`isError` absent) whose results object merely maps the path to a
file-not-found message. -/
theorem C6_counterexample :
    (readFileHandler readFsMissing { filePaths := "missing.txt" }).isError
      = none ∧
    lookupStr (readFileResults readFsMissing { filePaths := "missing.txt" })
      "missing.txt" = some "Error: File not found at path: missing.txt" :=
  ⟨rfl, rfl⟩

/-- C6 (amended): count-files invoked with a non-existent folderPath does
return an error Outcome (`isError = true`), but read-file with a
non-existent filePaths entry returns a success Outcome whose body maps
that path to `Error: File not found at path: …` — read-file's
`isError = true` arises only from its outer catch (e.g. a timeout), not
from per-file misses. -/
theorem C6_nonexistent_path_outcomes :
    (∀ (env : CountEnv) (p : CountArgs),
      env.pathExists (countTargetPath env p) = false →
      countFilesHandler env p =
        errorOutcome
          ("Error: Path does not exist: " ++ countTargetPath env p)) ∧
    (∀ (env : ReadFs) (args : ReadArgs) (p : String),
      env.timedOut = false →
      p ∈ readFilePathsOf args →
      env.pathExists p = false →
      (readFileHandler env args).isError = none ∧
      lookupStr (readFileResults env args) p =
        some ("Error: File not found at path: " ++ p)) := by
  constructor
  · intro env p h
    unfold countFilesHandler
    simp [h]
  · intro env args p ht hmem hex
    refine ⟨?_, ?_⟩
    · unfold readFileHandler
      simp [ht, textOutcome]
    · unfold readFileResults
      exact readFile_results_missing env args p hex (readFilePathsOf args)
        [] (Or.inl hmem)

/-- Witness for C6 (amended): with no existing paths, count-files errors
on the defaulted `~/Desktop` target and read-file reports the missing
`gone.txt` inside a success Outcome. -/
theorem C6_witness :
    countFilesHandler countEnvMissing {} =
      errorOutcome "Error: Path does not exist: /home/u/Desktop" ∧
    ((readFileHandler readFsMissing { filePaths := "gone.txt" }).isError
        = none ∧
      lookupStr (readFileResults readFsMissing { filePaths := "gone.txt" })
        "gone.txt" = some "Error: File not found at path: gone.txt") :=
  ⟨C6_nonexistent_path_outcomes.1 countEnvMissing {} rfl,
   C6_nonexistent_path_outcomes.2 readFsMissing { filePaths := "gone.txt" }
     "gone.txt" rfl (by decide) rfl⟩

/-- C2: for every list of registration entries passed to `registryTools`,
the function entries are each invoked exactly once, in order, with the
server handle (the final registry is their sequential application), and
every non-function entry contributes exactly one diagnostic without
aborting the bootstrap; in particular 3 entries of which 2 register one
tool each and 1 is not a function yield exactly 2 registered tools and
exactly 1 diagnostic. -/
theorem C2_bootstrap_skips_nonfunctions_registers_rest :
    (∀ (entries : List RegEntry) (server : List String),
      (registryTools entries server).server =
        (entries.filterMap RegEntry.register?).foldl (fun st r => r st)
          server ∧
      (registryTools entries server).errors.length =
        (entries.filter (fun e => !e.isFunction)).length) ∧
    (registryTools
      [RegEntry.fn (fun s => s ++ ["tool-a"]), RegEntry.invalid,
       RegEntry.fn (fun s => s ++ ["tool-b"])] []).server =
        ["tool-a", "tool-b"] ∧
    (registryTools
      [RegEntry.fn (fun s => s ++ ["tool-a"]), RegEntry.invalid,
       RegEntry.fn (fun s => s ++ ["tool-b"])] []).errors.length = 1 := by
  refine ⟨fun entries server => ?_, rfl, rfl⟩
  unfold registryTools
  rw [bootstrap_foldl]
  simp

/-- C8: the `uncaughtException` and `unhandledRejection` process handlers
each log the error and then terminate the process with exit code 1 — the
final effect of each is `exit 1`, preceded by a log of the error. -/
theorem C8_process_safety_net_exits_with_code_one :
    ∀ (error reason : String),
      (uncaughtExceptionHandler error).getLast? =
        some (ProcessEffect.exitProcess 1) ∧
      ProcessEffect.logError ("Uncaught Exception: " ++ error) ∈
        uncaughtExceptionHandler error ∧
      (unhandledRejectionHandler reason).getLast? =
        some (ProcessEffect.exitProcess 1) ∧
      ProcessEffect.logError ("Unhandled Promise Rejection: " ++ reason) ∈
        unhandledRejectionHandler reason := by
  intro error reason
  refine ⟨rfl, ?_, rfl, ?_⟩ <;>
    simp [uncaughtExceptionHandler, unhandledRejectionHandler]

/-- C10: `normalizeTimeout` with its default parameters computes
`min(max(t ?? 120, 1), 600) * 1000` milliseconds, so every effective
timeout lies in [1000 ms, 600000 ms]: absent → 120000, zero or negative →
1000, above 600 s → capped at 600000; hence the read-file handler's
effective timeout is always in that range. -/
theorem C10_normalizeTimeout_bounds :
    (∀ (t : Option ℚ),
      normalizeTimeoutDefault t = min (max (t.getD 120) 1) 600 * 1000 ∧
      1000 ≤ normalizeTimeoutDefault t ∧
      normalizeTimeoutDefault t ≤ 600000) ∧
    (∀ (args : ReadArgs),
      1000 ≤ normalizeTimeoutDefault args.timeout ∧
      normalizeTimeoutDefault args.timeout ≤ 600000) ∧
    normalizeTimeoutDefault none = 120000 ∧
    normalizeTimeoutDefault (some 0) = 1000 ∧
    normalizeTimeoutDefault (some (-5)) = 1000 ∧
    normalizeTimeoutDefault (some 1000) = 600000 := by
  have key : ∀ (t : Option ℚ),
      normalizeTimeoutDefault t = min (max (t.getD 120) 1) 600 * 1000 ∧
      1000 ≤ normalizeTimeoutDefault t ∧
      normalizeTimeoutDefault t ≤ 600000 := by
    intro t
    have h1 : (1 : ℚ) ≤ min (max (t.getD 120) 1) 600 :=
      le_min (le_max_right _ _) (by norm_num)
    have h2 : min (max (t.getD 120) 1) 600 ≤ 600 := min_le_right _ _
    refine ⟨rfl, ?_, ?_⟩ <;>
      · unfold normalizeTimeoutDefault normalizeTimeout
        dsimp only
        linarith
  refine ⟨key, fun args => ⟨(key args.timeout).2.1, (key args.timeout).2.2⟩,
    ?_, ?_, ?_, ?_⟩ <;>
    · unfold normalizeTimeoutDefault normalizeTimeout
      norm_num [min_def, max_def]

/-- An OS state for exercising `get-system-info`. -/
def osStateA : OsState :=
  { platform := "linux", osType := "Linux", osRelease := "6.8.0",
    arch := "x64", hostname := "devbox", totalmem := 16777216000,
    freemem := 8388608000, cpus := ["Xeon"], uptime := 3600,
    nowMs := 1700000000000, loadavg := [1/2], homedir := "/home/u" }

/-- The same OS state at a later wall-clock moment with different load
and a different home directory: everything the handler queries is
unchanged. -/
def osStateB : OsState :=
  { platform := "linux", osType := "Linux", osRelease := "6.8.0",
    arch := "x64", hostname := "devbox", totalmem := 16777216000,
    freemem := 8388608000, cpus := ["Xeon"], uptime := 3600,
    nowMs := 1700000099999, loadavg := [7/2], homedir := "/root" }

/-- C9: the `get-system-info` handler's outcome is a pure function of
exactly the OS values it queries (platform, type, release, architecture,
hostname, total/free memory, cpu list, uptime): two invocations against
OS states agreeing on those values produce structurally identical
success Outcomes, whatever the other time-varying OS facts do. -/
theorem C9_get_system_info_deterministic :
    ∀ (s₁ s₂ : OsState),
      s₁.platform = s₂.platform → s₁.osType = s₂.osType →
      s₁.osRelease = s₂.osRelease → s₁.arch = s₂.arch →
      s₁.hostname = s₂.hostname → s₁.totalmem = s₂.totalmem →
      s₁.freemem = s₂.freemem → s₁.cpus = s₂.cpus →
      s₁.uptime = s₂.uptime →
      getSystemInfoHandler s₁ = getSystemInfoHandler s₂ ∧
      (getSystemInfoHandler s₁).isError = none := by
  intro s₁ s₂ h₁ h₂ h₃ h₄ h₅ h₆ h₇ h₈ h₉
  constructor
  · unfold getSystemInfoHandler
    rw [h₁, h₂, h₃, h₄, h₅, h₆, h₇, h₈, h₉]
  · rfl

/-- Witness for C9: concrete OS states differing only in wall-clock time,
load average and home directory give identical outcomes. -/
theorem C9_witness :
    getSystemInfoHandler osStateA = getSystemInfoHandler osStateB ∧
    (getSystemInfoHandler osStateA).isError = none :=
  C9_get_system_info_deterministic osStateA osStateB rfl rfl rfl rfl rfl rfl
    rfl rfl rfl

/-- A concrete watch environment: resolution prefixes `/w/`, every path
exists, `fs.watch` succeeds. -/
def watchEnvDemo : WatchEnv :=
  { resolve := fun s => "/w/" ++ s,
    existsSync := fun _ => true,
    watch := fun _ => Except.ok () }

/-- C7: the watch-file-changes handler keeps at most one active watcher
per normalized path — a `start` for a path already in the watcher map
returns an error Outcome and leaves the map unchanged, and a `stop` for a
path not in the map returns an error Outcome and leaves the map
unchanged. -/
theorem C7_at_most_one_watcher_per_path :
    ∀ (env : WatchEnv) (m : List String) (p : WatchArgs),
      (p.action = "start" → env.resolve p.target_path ∈ m →
        (watchHandler env m p).1 = m ∧
        (watchHandler env m p).2.isError = some true) ∧
      (p.action = "stop" → env.resolve p.target_path ∉ m →
        (watchHandler env m p).1 = m ∧
        (watchHandler env m p).2.isError = some true) := by
  intro env m p
  constructor
  · intro ha hm
    unfold watchHandler
    rw [ha]
    by_cases hc : jsFalsy p.command
    · simp [hc, errorOutcome]
    · simp [hc, hm, errorOutcome]
  · intro ha hm
    unfold watchHandler
    rw [ha]
    simp [hm, errorOutcome]

/-- Witness for C7: with one active watcher for `/w/a`, a second `start`
for `a` and a `stop` for the unwatched `b` both fail and leave the map
as it was. -/
theorem C7_witness :
    ((watchHandler watchEnvDemo ["/w/a"]
        ⟨"start", "a", some "echo hi", false⟩).1 = ["/w/a"] ∧
      (watchHandler watchEnvDemo ["/w/a"]
        ⟨"start", "a", some "echo hi", false⟩).2.isError = some true) ∧
    ((watchHandler watchEnvDemo ["/w/a"]
        ⟨"stop", "b", none, false⟩).1 = ["/w/a"] ∧
      (watchHandler watchEnvDemo ["/w/a"]
        ⟨"stop", "b", none, false⟩).2.isError = some true) :=
  ⟨(C7_at_most_one_watcher_per_path watchEnvDemo ["/w/a"]
      ⟨"start", "a", some "echo hi", false⟩).1 rfl (by simp [watchEnvDemo]),
   (C7_at_most_one_watcher_per_path watchEnvDemo ["/w/a"]
      ⟨"stop", "b", none, false⟩).2 rfl (by simp [watchEnvDemo])⟩

end MCP
